import Mathlib

/-!
Verification of the wahire-api user-registration and phone-verification
backend (src/app/routes/user_routes.py, src/app/models/user_model.py).

The route handlers are shallowly embedded as pure Lean functions over an
explicit application state.  External collaborators are modelled at their
interface boundary:
- the document store (beanie) is a list of user records; `find_one`
  becomes `List.find?`, `save` replaces the record with the same id,
  `insert` appends;
- the process-local OTP dictionary (`otp_store`) is an association list
  with one live binding per key (assignment overwrites, `pop` removes);
- bcrypt salted hashing is idealised as the pair (plaintext, salt):
  `bcrypt.hash(c)` with salt s is `(c, s)` and `bcrypt.verify(c, h)`
  succeeds exactly when `c` equals the hashed plaintext (collision-free
  hash, which is the intended reading of the source);
- `time.time()` is an explicit `now : Nat` argument (seconds);
- randomness (the 6-digit code, bcrypt salts, a fresh uuid) is passed in
  as arguments;
- the Twilio send is treated as an always-succeeding external effect: no
  claim depends on message delivery.

Python handlers mutate `otp_store` before raising in some branches, so
every mutating handler returns the new application state together with an
`Except` result carrying the HTTP status and detail string of the source.
-/

/-- Salted bcrypt hash of an OTP, idealised as the hashed plaintext
together with the salt used.  Distinct salts give distinct hash values,
verification only compares the plaintext. -/
structure HashedOtp where
  code : String
  salt : Nat
deriving DecidableEq, Repr

/-- Model of `bcrypt.verify(candidate, hash)`. -/
def bcryptVerify (candidate : String) (h : HashedOtp) : Bool :=
  candidate == h.code

/-- Model of `bcrypt.hash(code)` drawing the salt `salt`. -/
def bcryptHash (code : String) (salt : Nat) : HashedOtp :=
  ⟨code, salt⟩

/-- One entry of the in-memory `otp_store`:
`{"otp": hashed_otp, "expires_at": time.time() + 300}`. -/
structure OtpEntry where
  otp : HashedOtp
  expires_at : Nat
deriving DecidableEq, Repr

/-- The in-memory OTP dictionary, keyed by (unmasked) phone number. -/
abbrev OtpStore : Type := List (String × OtpEntry)

/-- Dictionary read: `otp_store.get(phone)`. -/
def lookupOtp (s : OtpStore) (phone : String) : Option OtpEntry :=
  (List.find? (fun kv => kv.1 == phone) s).map (fun kv => kv.2)

/-- Dictionary removal: `otp_store.pop(phone, None)` (no-op when the key
is absent). -/
def popOtp (s : OtpStore) (phone : String) : OtpStore :=
  List.filter (fun kv => !(kv.1 == phone)) s

/-- Dictionary assignment: `otp_store[phone] = entry` (overwrites any
prior binding for the key). -/
def setOtp (s : OtpStore) (phone : String) (e : OtpEntry) : OtpStore :=
  (phone, e) :: popOtp s phone

/-- A user document (src/app/models/user_model.py).  The optional
email/password/job fields are carried for completeness; the route
handlers never set them. -/
structure User where
  id : String
  name : String
  phone : String
  email : Option String := none
  password : Option String := none
  role : String
  isPhoneVerified : Bool
  isUserDeleted : Bool
  job_category : Option String := none
  job_type : Option String := none
deriving DecidableEq, Repr

/-- The whole mutable state a request handler can touch: the user
collection of the document store and the process-local OTP dictionary. -/
structure AppState where
  users : List User
  otp_store : OtpStore
deriving DecidableEq, Repr

/-- An `HTTPException(status_code=..., detail=...)` raised by a handler. -/
structure HTTPError where
  status : Nat
  detail : String
deriving DecidableEq, Repr

/-- Model of beanie `document.save()`: replace the stored record carrying
the same id by the modified document. -/
def saveUser (users : List User) (u : User) : List User :=
  users.map (fun v => if v.id == u.id then u else v)

/-- Model of `User.find_one(User.phone == p)`: first stored record whose
phone field equals `p`. -/
def findByPhone (users : List User) (p : String) : Option User :=
  List.find? (fun v => v.phone == p) users

/-- `mask_phone` (user_routes.py line 56): all but the last 4 characters
replaced by asterisks.  `len(phone) - 4` is truncated natural
subtraction, and `phone[-4:]` keeps the last `min 4 (len phone)`
characters, matching Python slicing for short strings. -/
def mask_phone (phone : String) : String :=
  String.mk (List.replicate (phone.length - 4) '*')
    ++ String.mk (phone.data.drop (phone.length - 4))

/-- `generate_otp` (user_routes.py line 37): hash the freshly drawn code
and store it under the phone with a 300 second expiry.  The drawn code
and the bcrypt salt are passed in as the model of randomness; the caller
keeps the plaintext. -/
def generate_otp (s : OtpStore) (phone code : String) (salt : Nat)
    (now : Nat) : OtpStore :=
  setOtp s phone ⟨bcryptHash code salt, now + 300⟩

/-- `register_user` (user_routes.py lines 61-99).  `newId` models
`uuid.uuid4()`, `code`/`salt` the randomness of `generate_otp`. -/
def register_user (st : AppState) (name phone : String) (newId : String)
    (code : String) (salt : Nat) (now : Nat) :
    AppState × Except HTTPError String :=
  match findByPhone st.users (mask_phone phone) with
  | some existing_user =>
      if !existing_user.isUserDeleted then
        (st, Except.error ⟨400, "User with this phone number already exists."⟩)
      else
        ({ users := saveUser st.users
             { existing_user with isUserDeleted := false, name := name },
           otp_store := generate_otp st.otp_store phone code salt now },
         Except.ok ("User registered successfully. OTP sent to "
           ++ mask_phone phone ++ "."))
  | none =>
      ({ users := st.users ++
           [{ id := newId, name := name, phone := mask_phone phone,
              role := "user", isPhoneVerified := false,
              isUserDeleted := false }],
         otp_store := generate_otp st.otp_store phone code salt now },
       Except.ok ("User registered successfully. OTP sent to "
         ++ mask_phone phone ++ "."))

/-- `verify_otp` (user_routes.py lines 103-151).  The source pops the
entry before raising in the missing/expired branch, so that branch
returns the popped store together with the error. -/
def verify_otp (st : AppState) (now : Nat) (phone otp : String) :
    AppState × Except HTTPError String :=
  match lookupOtp st.otp_store phone with
  | none =>
      ({ st with otp_store := popOtp st.otp_store phone },
       Except.error ⟨400, "OTP expired or invalid"⟩)
  | some otp_entry =>
      if now > otp_entry.expires_at then
        ({ st with otp_store := popOtp st.otp_store phone },
         Except.error ⟨400, "OTP expired or invalid"⟩)
      else if !(bcryptVerify otp otp_entry.otp) then
        (st, Except.error ⟨400, "Incorrect OTP"⟩)
      else
        match findByPhone st.users (mask_phone phone) with
        | none => (st, Except.error ⟨404, "User not found"⟩)
        | some user =>
            ({ users := saveUser st.users { user with isPhoneVerified := true },
               otp_store := popOtp st.otp_store phone },
             Except.ok ("OTP verified successfully for "
               ++ mask_phone phone ++ "."))

/-- `resend_otp` (user_routes.py lines 155-194).  The source calls
`generate_otp` and then re-assigns `otp_store[phone]` with a second
bcrypt hash of the same fresh code; the two salts are `salt1`/`salt2`. -/
def resend_otp (st : AppState) (now : Nat) (phone : String)
    (code : String) (salt1 salt2 : Nat) :
    AppState × Except HTTPError String :=
  match findByPhone st.users (mask_phone phone) with
  | none => (st, Except.error ⟨404, "User not found"⟩)
  | some user =>
      if user.isPhoneVerified then
        (st, Except.error ⟨400, "User is already verified"⟩)
      else
        ({ st with otp_store :=
             (setOtp (generate_otp st.otp_store phone code salt1 now)
               phone ⟨bcryptHash code salt2, now + 300⟩) },
         Except.ok ("New OTP sent successfully to "
           ++ mask_phone phone ++ "."))

/-- `get_all_users` (user_routes.py lines 198-202):
`User.find(User.isPhoneVerified == True)` — the query filters on the
verified flag only. -/
def get_all_users (st : AppState) : List User :=
  List.filter (fun u => u.isPhoneVerified) st.users

/-- `get_user_by_id` (user_routes.py lines 207-213): `User.get(user_id)`
fetches by primary key, soft-deleted or not. -/
def get_user_by_id (st : AppState) (user_id : String) :
    Except HTTPError User :=
  match List.find? (fun v => v.id == user_id) st.users with
  | none => Except.error ⟨404, "User not found"⟩
  | some u => Except.ok u

/-- `update_user` (user_routes.py lines 218-230). -/
def update_user (st : AppState) (phone name : String) :
    AppState × Except HTTPError String :=
  match findByPhone st.users (mask_phone phone) with
  | none => (st, Except.error ⟨404, "User not found"⟩)
  | some user =>
      ({ st with users := saveUser st.users { user with name := name } },
       Except.ok "User updated successfully")

/-- `delete_user` (user_routes.py lines 235-250): soft delete, the
lookup does not filter on the deleted flag. -/
def delete_user (st : AppState) (phone : String) :
    AppState × Except HTTPError String :=
  match findByPhone st.users (mask_phone phone) with
  | none => (st, Except.error ⟨404, "User not found"⟩)
  | some user =>
      ({ st with users := saveUser st.users { user with isUserDeleted := true } },
       Except.ok "User deleted successfully")

/-- States reachable from the empty deployment state through the
mutating route handlers.  The `reg` step requires the generated uuid to
be fresh, modelling `uuid.uuid4()` never repeating an identifier (the
model says "a generated unique identifier"). -/
inductive Reachable : AppState → Prop where
  | init : Reachable ⟨[], []⟩
  | reg (st : AppState) (name phone newId code : String) (salt now : Nat)
      (hfresh : ∀ u ∈ st.users, u.id ≠ newId) (h : Reachable st) :
      Reachable (register_user st name phone newId code salt now).1
  | verify (st : AppState) (now : Nat) (phone code : String)
      (h : Reachable st) : Reachable (verify_otp st now phone code).1
  | resend (st : AppState) (now : Nat) (phone code : String)
      (salt1 salt2 : Nat) (h : Reachable st) :
      Reachable (resend_otp st now phone code salt1 salt2).1
  | update (st : AppState) (phone name : String) (h : Reachable st) :
      Reachable (update_user st phone name).1
  | del (st : AppState) (phone : String) (h : Reachable st) :
      Reachable (delete_user st phone).1

/-- Store invariant: the stored ids are pairwise distinct and the stored
(masked) phone numbers are pairwise distinct. -/
def StoreInv (l : List User) : Prop :=
  (l.map User.id).Nodup ∧ (l.map User.phone).Nodup

/-- Concrete user fixture (phone "9876543210" stored masked). -/
def ashaUser : User :=
  { id := "id1", name := "Asha", phone := "******3210", role := "user",
    isPhoneVerified := false, isUserDeleted := false }

/-- Concrete OTP ledger entry fixture: hash of code "123456" (salt 0),
expiring at time 300. -/
def otpEntryW : OtpEntry := ⟨⟨"123456", 0⟩, 300⟩

/-- Concrete application state fixture: one unverified user and one live
OTP entry for phone "9876543210". -/
def stW : AppState := ⟨[ashaUser], [("9876543210", otpEntryW)]⟩

/-- Concrete state fixture: the state produced by registering Asha into
the empty deployment state. -/
def stR : AppState :=
  (register_user ⟨[], []⟩ "Asha" "9876543210" "id1" "123456" 0 0).1

/-! ## Basic lemmas about the OTP dictionary and the store -/

theorem lookupOtp_setOtp_self (s : OtpStore) (p : String) (e : OtpEntry) :
    lookupOtp (setOtp s p e) p = some e := by
  simp [lookupOtp, setOtp, List.find?]

theorem lookupOtp_popOtp_self (s : OtpStore) (p : String) :
    lookupOtp (popOtp s p) p = none := by
  simp only [lookupOtp, popOtp, Option.map_eq_none']
  rw [List.find?_eq_none]
  intro kv hkv
  have h2 := (List.mem_filter.mp hkv).2
  simpa using h2

theorem saveUser_cons (a : User) (t : List User) (u : User) :
    saveUser (a :: t) u = (if a.id == u.id then u else a) :: saveUser t u :=
  rfl

theorem find?_saveUser (l : List User) (m : String) (u u' : User)
    (h : List.find? (fun v => v.phone == m) l = some u)
    (hid : u'.id = u.id) (hph : u'.phone = u.phone) :
    List.find? (fun v => v.phone == m) (saveUser l u') = some u' := by
  induction l with
  | nil => simp at h
  | cons a t ih =>
    have hpu := List.find?_some h
    rw [saveUser_cons]
    by_cases hid2 : (a.id == u'.id) = true
    · rw [if_pos hid2]
      exact List.find?_cons_of_pos _ (show (u'.phone == m) = true by rw [hph]; exact hpu)
    · rw [if_neg hid2]
      by_cases hap : (a.phone == m) = true
      · rw [List.find?_cons_of_pos (p := fun (v : User) => v.phone == m) _ hap] at h
        have hau : a = u := Option.some.inj h
        exact absurd (beq_iff_eq.mpr (by rw [hau]; exact hid.symm)) hid2
      · rw [List.find?_cons_of_neg (p := fun (v : User) => v.phone == m) _ hap] at h
        rw [List.find?_cons_of_neg (p := fun (v : User) => v.phone == m) _ hap]
        exact ih h

/-! ## C1: verification succeeds exactly on the right code in time -/

/-- C1: for every phone P with a live ledger entry and an existing user
record for (the masked) P, `verify_otp` succeeds iff the submitted code
equals the code whose hash the entry stores (the most recently generated
one) and the current time is at most the entry's expiry; after success
the ledger entry for P no longer exists and the stored user's verified
flag is true. -/
theorem C1_verify_otp_iff (st : AppState) (now : Nat) (P code : String)
    (entry : OtpEntry) (u : User)
    (he : lookupOtp st.otp_store P = some entry)
    (hu : findByPhone st.users (mask_phone P) = some u) :
    ((∃ r, (verify_otp st now P code).2 = Except.ok r) ↔
      (code = entry.otp.code ∧ now ≤ entry.expires_at))
    ∧ ((∃ r, (verify_otp st now P code).2 = Except.ok r) →
        lookupOtp (verify_otp st now P code).1.otp_store P = none
        ∧ findByPhone (verify_otp st now P code).1.users (mask_phone P)
            = some { u with isPhoneVerified := true }) := by
  by_cases hexp : entry.expires_at < now
  · simp only [verify_otp, he, if_pos hexp]
    refine ⟨⟨?_, ?_⟩, ?_⟩
    · rintro ⟨r, hr⟩; simp at hr
    · rintro ⟨-, hle⟩; omega
    · rintro ⟨r, hr⟩; simp at hr
  · by_cases hc : code = entry.otp.code
    · have hbv : bcryptVerify code entry.otp = true := beq_iff_eq.mpr hc
      simp only [verify_otp, he, if_neg hexp, hbv, Bool.not_true, Bool.false_eq_true,
        if_false, hu]
      refine ⟨⟨?_, ?_⟩, ?_⟩
      · intro _; exact ⟨hc, by omega⟩
      · intro _; exact ⟨_, rfl⟩
      · intro _
        refine ⟨lookupOtp_popOtp_self _ _, ?_⟩
        exact find?_saveUser st.users (mask_phone P) u _ hu rfl rfl
    · have hbv : bcryptVerify code entry.otp = false := by
        simp only [bcryptVerify]
        exact beq_eq_false_iff_ne.mpr hc
      simp only [verify_otp, he, if_neg hexp, hbv, Bool.not_false, if_true]
      refine ⟨⟨?_, ?_⟩, ?_⟩
      · rintro ⟨r, hr⟩; simp at hr
      · rintro ⟨h1, -⟩; exact absurd h1 hc
      · rintro ⟨r, hr⟩; simp at hr

/-- Witness for C1: the hypotheses and the conclusion instantiated at the
concrete fixture state. -/
theorem C1_verify_otp_iff_witness :
    lookupOtp stW.otp_store "9876543210" = some otpEntryW
    ∧ findByPhone stW.users (mask_phone "9876543210") = some ashaUser
    ∧ (((∃ r, (verify_otp stW 10 "9876543210" "123456").2 = Except.ok r) ↔
        ("123456" = otpEntryW.otp.code ∧ 10 ≤ otpEntryW.expires_at))
      ∧ ((∃ r, (verify_otp stW 10 "9876543210" "123456").2 = Except.ok r) →
          lookupOtp (verify_otp stW 10 "9876543210" "123456").1.otp_store "9876543210" = none
          ∧ findByPhone (verify_otp stW 10 "9876543210" "123456").1.users (mask_phone "9876543210")
              = some { ashaUser with isPhoneVerified := true })) :=
  ⟨rfl, by decide,
    C1_verify_otp_iff stW 10 "9876543210" "123456" otpEntryW ashaUser rfl (by decide)⟩

/-! ## C2, C3, C9: the failure branches of verification -/

/-- Helper: with a live unexpired entry and a user record present,
submitting exactly the code whose hash the entry stores succeeds. -/
theorem verify_otp_ok_of (st : AppState) (now : Nat) (P : String)
    (entry : OtpEntry) (u : User)
    (he : lookupOtp st.otp_store P = some entry)
    (hu : findByPhone st.users (mask_phone P) = some u)
    (hexp : now ≤ entry.expires_at) :
    (verify_otp st now P entry.otp.code).2
      = Except.ok ("OTP verified successfully for " ++ mask_phone P ++ ".") := by
  have hbv : bcryptVerify entry.otp.code entry.otp = true := beq_iff_eq.mpr rfl
  simp only [verify_otp, he, if_neg (by omega : ¬ now > entry.expires_at), hbv,
    Bool.not_true, Bool.false_eq_true, if_false, hu]

/-- C2: a wrong code against a live unexpired entry fails with the
mismatch error and leaves the whole state (in particular the ledger entry
for P) unchanged, so a later attempt with the correct code within the
expiry window still succeeds whenever the user record is there. -/
theorem C2_mismatch_keeps_entry (st : AppState) (now : Nat)
    (P wrong : String) (entry : OtpEntry)
    (he : lookupOtp st.otp_store P = some entry)
    (hexp : now ≤ entry.expires_at)
    (hw : wrong ≠ entry.otp.code) :
    verify_otp st now P wrong = (st, Except.error ⟨400, "Incorrect OTP"⟩)
    ∧ (∀ u nowB, findByPhone st.users (mask_phone P) = some u →
        nowB ≤ entry.expires_at →
        (verify_otp st nowB P entry.otp.code).2
          = Except.ok ("OTP verified successfully for " ++ mask_phone P ++ ".")) := by
  constructor
  · have hbv : bcryptVerify wrong entry.otp = false := by
      simp only [bcryptVerify]
      exact beq_eq_false_iff_ne.mpr hw
    simp only [verify_otp, he, if_neg (by omega : ¬ now > entry.expires_at), hbv,
      Bool.not_false, if_true]
  · intro u nowB hu hexpB
    exact verify_otp_ok_of st nowB P entry u he hu hexpB

/-- Witness for C2 at the concrete fixture state: mismatching code
"000000", then the stored code "123456". -/
theorem C2_mismatch_keeps_entry_witness :
    lookupOtp stW.otp_store "9876543210" = some otpEntryW
    ∧ (10 ≤ otpEntryW.expires_at ∧ "000000" ≠ otpEntryW.otp.code)
    ∧ (verify_otp stW 10 "9876543210" "000000"
         = (stW, Except.error ⟨400, "Incorrect OTP"⟩)
      ∧ (∀ u nowB, findByPhone stW.users (mask_phone "9876543210") = some u →
          nowB ≤ otpEntryW.expires_at →
          (verify_otp stW nowB "9876543210" otpEntryW.otp.code).2
            = Except.ok ("OTP verified successfully for "
                ++ mask_phone "9876543210" ++ "."))) :=
  ⟨rfl, ⟨by decide, by decide⟩,
    C2_mismatch_keeps_entry stW 10 "9876543210" "000000" otpEntryW rfl
      (by decide) (by decide)⟩

/-- Counterexample for C3: the code raises one and the same error
(HTTP 400, "OTP expired or invalid") both when no ledger entry exists and
when an entry exists but is expired, so the two failures are not
distinct errors. -/
theorem C3_counterexample :
    (verify_otp ⟨[], []⟩ 0 "9876543210" "123456").2
        = Except.error ⟨400, "OTP expired or invalid"⟩
    ∧ (verify_otp ⟨[], [("9876543210", otpEntryW)]⟩ 301 "9876543210" "123456").2
        = Except.error ⟨400, "OTP expired or invalid"⟩
    ∧ (verify_otp ⟨[], []⟩ 0 "9876543210" "123456").2
        = (verify_otp ⟨[], [("9876543210", otpEntryW)]⟩ 301 "9876543210" "123456").2 :=
  ⟨rfl, rfl, rfl⟩

/-- C3 (amended): ledger verification fails with the single combined
error (400, "OTP expired or invalid") both when no entry exists for the
phone and when the current time is strictly after the entry's expiry; in
the expired case the entry is removed as a side effect, so a subsequent
attempt for the same phone, even with the right code, fails with that
same combined error. -/
theorem C3_missing_and_expired_same_error (st : AppState) (now : Nat)
    (P code : String) :
    (lookupOtp st.otp_store P = none →
      verify_otp st now P code
        = ({ st with otp_store := popOtp st.otp_store P },
           Except.error ⟨400, "OTP expired or invalid"⟩))
    ∧ (∀ entry, lookupOtp st.otp_store P = some entry →
        entry.expires_at < now →
        verify_otp st now P code
          = ({ st with otp_store := popOtp st.otp_store P },
             Except.error ⟨400, "OTP expired or invalid"⟩)
        ∧ lookupOtp (popOtp st.otp_store P) P = none
        ∧ ∀ nowB codeB,
            (verify_otp { st with otp_store := popOtp st.otp_store P } nowB P codeB).2
              = Except.error ⟨400, "OTP expired or invalid"⟩) := by
  constructor
  · intro he
    simp only [verify_otp, he]
  · intro entry he hlt
    refine ⟨by simp only [verify_otp, he, if_pos hlt], lookupOtp_popOtp_self _ _, ?_⟩
    intro nowB codeB
    simp only [verify_otp, lookupOtp_popOtp_self]

/-- Witness for C3 (amended): both implications discharged at concrete
inputs, one with an empty ledger and one with an entry expired at time
301. -/
theorem C3_missing_and_expired_same_error_witness :
    (verify_otp ⟨[], []⟩ 0 "9876543210" "123456"
        = ({ users := [], otp_store := popOtp [] "9876543210" },
           Except.error ⟨400, "OTP expired or invalid"⟩))
    ∧ (verify_otp ⟨[], [("9876543210", otpEntryW)]⟩ 301 "9876543210" "123456"
          = ({ users := [],
               otp_store := popOtp [("9876543210", otpEntryW)] "9876543210" },
             Except.error ⟨400, "OTP expired or invalid"⟩)
        ∧ lookupOtp (popOtp [("9876543210", otpEntryW)] "9876543210") "9876543210" = none
        ∧ ∀ nowB codeB,
            (verify_otp { users := [],
                          otp_store := popOtp [("9876543210", otpEntryW)] "9876543210" }
              nowB "9876543210" codeB).2
              = Except.error ⟨400, "OTP expired or invalid"⟩) :=
  ⟨(C3_missing_and_expired_same_error ⟨[], []⟩ 0 "9876543210" "123456").1 rfl,
    (C3_missing_and_expired_same_error ⟨[], [("9876543210", otpEntryW)]⟩ 301
      "9876543210" "123456").2 otpEntryW rfl (by decide)⟩

/-- C9: with a live unexpired entry and the correctly matching code, if
no user record is found for the masked phone, verification fails with the
404 user-not-found error and the whole state, in particular the ledger
entry, is unchanged. -/
theorem C9_no_user_keeps_entry (st : AppState) (now : Nat) (P : String)
    (entry : OtpEntry)
    (he : lookupOtp st.otp_store P = some entry)
    (hexp : now ≤ entry.expires_at)
    (hu : findByPhone st.users (mask_phone P) = none) :
    verify_otp st now P entry.otp.code
      = (st, Except.error ⟨404, "User not found"⟩) := by
  have hbv : bcryptVerify entry.otp.code entry.otp = true := beq_iff_eq.mpr rfl
  simp only [verify_otp, he, if_neg (by omega : ¬ now > entry.expires_at), hbv,
    Bool.not_true, Bool.false_eq_true, if_false, hu]

/-- Witness for C9: live entry, right code, empty user store. -/
theorem C9_no_user_keeps_entry_witness :
    verify_otp ⟨[], [("9876543210", otpEntryW)]⟩ 10 "9876543210" otpEntryW.otp.code
      = (⟨[], [("9876543210", otpEntryW)]⟩, Except.error ⟨404, "User not found"⟩) :=
  C9_no_user_keeps_entry ⟨[], [("9876543210", otpEntryW)]⟩ 10 "9876543210"
    otpEntryW rfl (by decide) rfl

/-! ## C5, C6: registration against an existing record -/

/-- C5: registering a phone whose stored record is soft-deleted
reactivates that same record in place: same id, deleted flag cleared,
name overwritten, verified flag untouched; no record is added and the
reactivated record is what a lookup by the masked phone now returns. -/
theorem C5_reactivates_in_place (st : AppState) (name P newId code : String)
    (salt now : Nat) (u : User)
    (hu : findByPhone st.users (mask_phone P) = some u)
    (hdel : u.isUserDeleted = true) :
    ∃ u', (register_user st name P newId code salt now).1.users
            = saveUser st.users u'
      ∧ u'.id = u.id
      ∧ u'.isUserDeleted = false
      ∧ u'.name = name
      ∧ u'.isPhoneVerified = u.isPhoneVerified
      ∧ (register_user st name P newId code salt now).1.users.length
          = st.users.length
      ∧ findByPhone (register_user st name P newId code salt now).1.users
          (mask_phone P) = some u' := by
  refine ⟨{ u with isUserDeleted := false, name := name },
    ?_, rfl, rfl, rfl, rfl, ?_, ?_⟩
  · simp only [register_user, hu, hdel, Bool.not_true, Bool.false_eq_true, if_false]
  · simp only [register_user, hu, hdel, Bool.not_true, Bool.false_eq_true, if_false,
      saveUser, List.length_map]
  · simp only [register_user, hu, hdel, Bool.not_true, Bool.false_eq_true, if_false]
    exact find?_saveUser st.users (mask_phone P) u _ hu rfl rfl

/-- Witness for C5 on a one-element store holding the soft-deleted
fixture user. -/
theorem C5_reactivates_in_place_witness :
    ∃ u', (register_user ⟨[{ ashaUser with isUserDeleted := true }], []⟩
              "Binda" "9876543210" "id2" "654321" 1 7).1.users
            = saveUser [{ ashaUser with isUserDeleted := true }] u'
      ∧ u'.id = ashaUser.id
      ∧ u'.isUserDeleted = false
      ∧ u'.name = "Binda"
      ∧ u'.isPhoneVerified = ({ ashaUser with isUserDeleted := true } : User).isPhoneVerified
      ∧ (register_user ⟨[{ ashaUser with isUserDeleted := true }], []⟩
              "Binda" "9876543210" "id2" "654321" 1 7).1.users.length
          = ([{ ashaUser with isUserDeleted := true }] : List User).length
      ∧ findByPhone (register_user ⟨[{ ashaUser with isUserDeleted := true }], []⟩
              "Binda" "9876543210" "id2" "654321" 1 7).1.users
          (mask_phone "9876543210") = some u' :=
  C5_reactivates_in_place ⟨[{ ashaUser with isUserDeleted := true }], []⟩
    "Binda" "9876543210" "id2" "654321" 1 7
    { ashaUser with isUserDeleted := true } (by decide) rfl

/-- C6: registering a phone whose stored record exists and is not
soft-deleted fails with the already-exists error and returns the state
untouched (neither the user store nor the OTP ledger is mutated). -/
theorem C6_already_exists_no_mutation (st : AppState)
    (name P newId code : String) (salt now : Nat) (u : User)
    (hu : findByPhone st.users (mask_phone P) = some u)
    (hnd : u.isUserDeleted = false) :
    register_user st name P newId code salt now
      = (st, Except.error ⟨400, "User with this phone number already exists."⟩) := by
  simp only [register_user, hu, hnd, Bool.not_false, if_true]

/-- Witness for C6 at the fixture state holding a non-deleted user. -/
theorem C6_already_exists_no_mutation_witness :
    register_user stW "Binda" "9876543210" "id2" "654321" 1 7
      = (stW, Except.error ⟨400, "User with this phone number already exists."⟩) :=
  C6_already_exists_no_mutation stW "Binda" "9876543210" "id2" "654321" 1 7
    ashaUser (by decide) rfl

/-! ## C10: soft delete is id-insensitive to the deleted flag and idempotent -/

theorem saveUser_saveUser (l : List User) (u : User) :
    saveUser (saveUser l u) u = saveUser l u := by
  simp only [saveUser, List.map_map]
  apply List.map_congr_left
  intro v _
  by_cases h : (v.id == u.id) = true
  · simp [Function.comp, h]
  · simp [Function.comp, h]

/-- C10: soft delete succeeds for any stored record, soft-deleted already
or not (the lookup does not filter on the deleted flag), and is
idempotent: a second delete succeeds and leaves the state of the first. -/
theorem C10_delete_idempotent (st : AppState) (P : String) (u : User)
    (hu : findByPhone st.users (mask_phone P) = some u) :
    (delete_user st P).2 = Except.ok "User deleted successfully"
    ∧ (delete_user (delete_user st P).1 P).2
        = Except.ok "User deleted successfully"
    ∧ (delete_user (delete_user st P).1 P).1 = (delete_user st P).1 := by
  have h1 : delete_user st P
      = ({ st with users := saveUser st.users { u with isUserDeleted := true } },
         Except.ok "User deleted successfully") := by
    simp only [delete_user, hu]
  have hfound2 : findByPhone (saveUser st.users { u with isUserDeleted := true })
      (mask_phone P) = some { u with isUserDeleted := true } :=
    find?_saveUser st.users (mask_phone P) u _ hu rfl rfl
  have h2 : delete_user (delete_user st P).1 P
      = ({ st with users :=
             (saveUser (saveUser st.users { u with isUserDeleted := true })
               { u with isUserDeleted := true }) },
         Except.ok "User deleted successfully") := by
    rw [h1]
    simp only [delete_user, hfound2]
  refine ⟨by rw [h1], by rw [h2], ?_⟩
  rw [h2, h1]
  simp only [saveUser_saveUser]

/-- Witness for C10 at the fixture state. -/
theorem C10_delete_idempotent_witness :
    (delete_user stW "9876543210").2 = Except.ok "User deleted successfully"
    ∧ (delete_user (delete_user stW "9876543210").1 "9876543210").2
        = Except.ok "User deleted successfully"
    ∧ (delete_user (delete_user stW "9876543210").1 "9876543210").1
        = (delete_user stW "9876543210").1 :=
  C10_delete_idempotent stW "9876543210" ashaUser (by decide)

/-! ## C7: resend overwrites the ledger entry -/

/-- Counterexample for C7: resending may draw the same 6-digit code
again; when it does, the previously issued code still verifies, so "the
previously issued code no longer verifies" fails as a universal claim
over the random draw. -/
theorem C7_counterexample :
    lookupOtp stW.otp_store "9876543210" = some otpEntryW
    ∧ otpEntryW.otp.code = "123456"
    ∧ (∃ r, (verify_otp (resend_otp stW 0 "9876543210" "123456" 1 2).1
          10 "9876543210" "123456").2 = Except.ok r) :=
  ⟨rfl, rfl, ⟨_, rfl⟩⟩

/-- C7 (amended): on a verified user, resend fails with the
already-verified error and leaves the whole state (so also the ledger)
unchanged; on an unverified user it overwrites the ledger entry for P
with a hash of the freshly drawn code, and any code other than the fresh
one — in particular the previously issued code whenever it differs from
the fresh draw — no longer verifies. -/
theorem C7_resend_overwrites (st : AppState) (now : Nat) (P code : String)
    (salt1 salt2 : Nat) (u : User)
    (hu : findByPhone st.users (mask_phone P) = some u) :
    (u.isPhoneVerified = true →
      resend_otp st now P code salt1 salt2
        = (st, Except.error ⟨400, "User is already verified"⟩))
    ∧ (u.isPhoneVerified = false →
      lookupOtp (resend_otp st now P code salt1 salt2).1.otp_store P
        = some ⟨bcryptHash code salt2, now + 300⟩
      ∧ ∀ old, old ≠ code → ∀ nowB r,
          (verify_otp (resend_otp st now P code salt1 salt2).1 nowB P old).2
            ≠ Except.ok r) := by
  constructor
  · intro hv
    simp only [resend_otp, hu, hv, if_true]
  · intro hnv
    have hst : (resend_otp st now P code salt1 salt2).1
        = { st with otp_store :=
              (setOtp (generate_otp st.otp_store P code salt1 now) P
                ⟨bcryptHash code salt2, now + 300⟩) } := by
      simp only [resend_otp, hu, hnv, Bool.false_eq_true, if_false]
    rw [hst]
    have he : lookupOtp
        (setOtp (generate_otp st.otp_store P code salt1 now) P
          ⟨bcryptHash code salt2, now + 300⟩) P
        = some ⟨bcryptHash code salt2, now + 300⟩ :=
      lookupOtp_setOtp_self _ _ _
    refine ⟨he, ?_⟩
    intro old hold nowB r
    by_cases hexp : now + 300 < nowB
    · simp only [verify_otp, he, if_pos hexp]
      simp
    · have hbv : bcryptVerify old (bcryptHash code salt2) = false := by
        simp only [bcryptVerify, bcryptHash]
        exact beq_eq_false_iff_ne.mpr hold
      simp only [verify_otp, he, if_neg hexp, hbv, Bool.not_false, if_true]
      simp

/-- Witness for C7 (amended) at the fixture state with the unverified
user, exercising the unverified branch through the implication. -/
theorem C7_resend_overwrites_witness :
    lookupOtp (resend_otp stW 0 "9876543210" "654321" 1 2).1.otp_store "9876543210"
        = some ⟨bcryptHash "654321" 2, 0 + 300⟩
    ∧ ∀ old, old ≠ "654321" → ∀ nowB r,
        (verify_otp (resend_otp stW 0 "9876543210" "654321" 1 2).1
          nowB "9876543210" old).2 ≠ Except.ok r :=
  (C7_resend_overwrites stW 0 "9876543210" "654321" 1 2 ashaUser (by decide)).2 rfl

/-! ## C8: what getAll returns -/

/-- Counterexample for C8: a record that is soft-deleted and verified is
returned by `get_all_users`, so the result is not restricted to
non-soft-deleted users. -/
theorem C8_counterexample :
    get_all_users
        ⟨[{ ashaUser with isPhoneVerified := true, isUserDeleted := true }], []⟩
      = [{ ashaUser with isPhoneVerified := true, isUserDeleted := true }]
    ∧ ({ ashaUser with isPhoneVerified := true, isUserDeleted := true } : User).isUserDeleted
        = true :=
  ⟨rfl, rfl⟩

/-- C8 (amended): `get_all_users` returns exactly the phone-verified
users of the store, regardless of the soft-deleted flag: a user is in
the result iff it is stored and its verified flag is true. -/
theorem C8_returns_exactly_verified (st : AppState) (u : User) :
    u ∈ get_all_users st ↔ (u ∈ st.users ∧ u.isPhoneVerified = true) := by
  simp [get_all_users, List.mem_filter]

/-! ## C4: uniqueness is per MASKED phone number -/

/-- Counterexample for C4: "9876543210" and "1111113210" are distinct
phone numbers, yet after registering the first, registering the second is
rejected as already existing, because both mask to "******3210" and the
lookup keys on the masked phone. -/
theorem C4_counterexample :
    "9876543210" ≠ "1111113210"
    ∧ (∃ r, (register_user ⟨[], []⟩ "Asha" "9876543210" "id1" "123456" 0 0).2
         = Except.ok r)
    ∧ (register_user (register_user ⟨[], []⟩ "Asha" "9876543210" "id1" "123456" 0 0).1
         "Bob" "1111113210" "id2" "654321" 1 0).2
       = Except.error ⟨400, "User with this phone number already exists."⟩ :=
  ⟨by decide, ⟨_, rfl⟩, rfl⟩

theorem map_id_saveUser (l : List User) (u : User) :
    (saveUser l u).map User.id = l.map User.id := by
  simp only [saveUser, List.map_map]
  apply List.map_congr_left
  intro v _
  by_cases h : (v.id == u.id) = true
  · simp only [Function.comp_apply, h, if_true]
    exact (beq_iff_eq.mp h).symm
  · have hne : v.id ≠ u.id := fun hh => h (beq_iff_eq.mpr hh)
    simp [hne]

theorem map_phone_saveUser (l : List User) (u u' : User)
    (hnd : (l.map User.id).Nodup) (hmem : u ∈ l)
    (hid : u'.id = u.id) (hph : u'.phone = u.phone) :
    (saveUser l u').map User.phone = l.map User.phone := by
  simp only [saveUser, List.map_map]
  apply List.map_congr_left
  intro v hv
  by_cases h : (v.id == u'.id) = true
  · have hvid : v.id = u'.id := beq_iff_eq.mp h
    have hvu : v = u := List.inj_on_of_nodup_map hnd hv hmem (by rw [hvid, hid])
    simp only [Function.comp_apply, h, if_true]
    rw [hph, hvu]
  · have hne : v.id ≠ u'.id := fun hh => h (beq_iff_eq.mpr hh)
    simp [hne]

theorem storeInv_saveUser (l : List User) (u u' : User)
    (hinv : StoreInv l) (hmem : u ∈ l)
    (hid : u'.id = u.id) (hph : u'.phone = u.phone) :
    StoreInv (saveUser l u') :=
  ⟨by rw [map_id_saveUser]; exact hinv.1,
   by rw [map_phone_saveUser l u u' hinv.1 hmem hid hph]; exact hinv.2⟩

/-- The user list after `register_user`: unchanged (rejection), an
in-place reactivation, or the insertion of one fresh record when no
record with that masked phone exists. -/
theorem register_users_cases (st : AppState) (name phone newId code : String)
    (salt now : Nat) :
    (register_user st name phone newId code salt now).1.users = st.users
    ∨ (∃ u, findByPhone st.users (mask_phone phone) = some u
        ∧ (register_user st name phone newId code salt now).1.users
            = saveUser st.users { u with isUserDeleted := false, name := name })
    ∨ (findByPhone st.users (mask_phone phone) = none
        ∧ (register_user st name phone newId code salt now).1.users
            = st.users ++
              [{ id := newId, name := name, phone := mask_phone phone,
                 role := "user", isPhoneVerified := false,
                 isUserDeleted := false }]) := by
  cases hu : findByPhone st.users (mask_phone phone) with
  | none =>
      right; right
      exact ⟨rfl, by simp only [register_user, hu]⟩
  | some u =>
      by_cases hdel : u.isUserDeleted = true
      · right; left
        refine ⟨u, rfl, ?_⟩
        simp only [register_user, hu, hdel, Bool.not_true, Bool.false_eq_true,
          if_false]
      · left
        have hdel' : u.isUserDeleted = false := Bool.eq_false_iff.mpr hdel
        simp only [register_user, hu, hdel', Bool.not_false, if_true]

/-- The user list after `verify_otp`: unchanged, or one record's
verified flag set in place. -/
theorem verify_users_cases (st : AppState) (now : Nat) (phone code : String) :
    (verify_otp st now phone code).1.users = st.users
    ∨ ∃ u, findByPhone st.users (mask_phone phone) = some u
        ∧ (verify_otp st now phone code).1.users
            = saveUser st.users { u with isPhoneVerified := true } := by
  cases he : lookupOtp st.otp_store phone with
  | none => left; simp only [verify_otp, he]
  | some entry =>
      by_cases hexp : now > entry.expires_at
      · left; simp only [verify_otp, he, if_pos hexp]
      · by_cases hbv : bcryptVerify code entry.otp = true
        · cases hu : findByPhone st.users (mask_phone phone) with
          | none =>
              left
              simp only [verify_otp, he, if_neg hexp, hbv, Bool.not_true,
                Bool.false_eq_true, if_false, hu]
          | some u =>
              right
              refine ⟨u, rfl, ?_⟩
              simp only [verify_otp, he, if_neg hexp, hbv, Bool.not_true,
                Bool.false_eq_true, if_false, hu]
        · left
          have hbv' : bcryptVerify code entry.otp = false :=
            Bool.eq_false_iff.mpr hbv
          simp only [verify_otp, he, if_neg hexp, hbv', Bool.not_false, if_true]

/-- `resend_otp` never touches the user list. -/
theorem resend_users_eq (st : AppState) (now : Nat) (phone code : String)
    (salt1 salt2 : Nat) :
    (resend_otp st now phone code salt1 salt2).1.users = st.users := by
  cases hu : findByPhone st.users (mask_phone phone) with
  | none => simp only [resend_otp, hu]
  | some u =>
      by_cases hv : u.isPhoneVerified = true
      · simp only [resend_otp, hu, hv, if_true]
      · have hv' : u.isPhoneVerified = false := Bool.eq_false_iff.mpr hv
        simp only [resend_otp, hu, hv', Bool.false_eq_true, if_false]

/-- The user list after `update_user`: unchanged or one name overwritten
in place. -/
theorem update_users_cases (st : AppState) (phone name : String) :
    (update_user st phone name).1.users = st.users
    ∨ ∃ u, findByPhone st.users (mask_phone phone) = some u
        ∧ (update_user st phone name).1.users
            = saveUser st.users { u with name := name } := by
  cases hu : findByPhone st.users (mask_phone phone) with
  | none => left; simp only [update_user, hu]
  | some u => right; exact ⟨u, rfl, by simp only [update_user, hu]⟩

/-- The user list after `delete_user`: unchanged or one deleted flag set
in place. -/
theorem delete_users_cases (st : AppState) (phone : String) :
    (delete_user st phone).1.users = st.users
    ∨ ∃ u, findByPhone st.users (mask_phone phone) = some u
        ∧ (delete_user st phone).1.users
            = saveUser st.users { u with isUserDeleted := true } := by
  cases hu : findByPhone st.users (mask_phone phone) with
  | none => left; simp only [delete_user, hu]
  | some u => right; exact ⟨u, rfl, by simp only [delete_user, hu]⟩

/-- Every reachable state satisfies the store invariant: ids and masked
phones are pairwise distinct across stored records. -/
theorem storeInv_of_reachable (st : AppState) (h : Reachable st) :
    StoreInv st.users := by
  induction h with
  | init => exact ⟨List.nodup_nil, List.nodup_nil⟩
  | reg st name phone newId code salt now hfresh h ih =>
      rcases register_users_cases st name phone newId code salt now with
        heq | ⟨u, hu, heq⟩ | ⟨hu, heq⟩
      · rw [heq]; exact ih
      · rw [heq]
        exact storeInv_saveUser st.users u _ ih (List.mem_of_find?_eq_some hu)
          rfl rfl
      · rw [heq]
        have hu' : List.find? (fun v => v.phone == mask_phone phone) st.users
            = none := hu
        constructor
        · rw [List.map_append, List.nodup_append]
          refine ⟨ih.1, List.nodup_singleton _, ?_⟩
          intro a ha hb
          simp only [List.map_cons, List.map_nil, List.mem_singleton] at hb
          subst hb
          rcases List.mem_map.mp ha with ⟨v, hv, hvid⟩
          exact hfresh v hv hvid
        · rw [List.map_append, List.nodup_append]
          refine ⟨ih.2, List.nodup_singleton _, ?_⟩
          intro a ha hb
          simp only [List.map_cons, List.map_nil, List.mem_singleton] at hb
          subst hb
          rcases List.mem_map.mp ha with ⟨v, hv, hvph⟩
          exact (List.find?_eq_none.mp hu' v hv) (beq_iff_eq.mpr hvph)
  | verify st now phone code h ih =>
      rcases verify_users_cases st now phone code with heq | ⟨u, hu, heq⟩
      · rw [heq]; exact ih
      · rw [heq]
        exact storeInv_saveUser st.users u _ ih (List.mem_of_find?_eq_some hu)
          rfl rfl
  | resend st now phone code salt1 salt2 h ih =>
      rw [resend_users_eq]; exact ih
  | update st phone name h ih =>
      rcases update_users_cases st phone name with heq | ⟨u, hu, heq⟩
      · rw [heq]; exact ih
      · rw [heq]
        exact storeInv_saveUser st.users u _ ih (List.mem_of_find?_eq_some hu)
          rfl rfl
  | del st phone h ih =>
      rcases delete_users_cases st phone with heq | ⟨u, hu, heq⟩
      · rw [heq]; exact ih
      · rw [heq]
        exact storeInv_saveUser st.users u _ ih (List.mem_of_find?_eq_some hu)
          rfl rfl

/-- C4 (amended): in every reachable store state, at most one record —
deleted or not — exists per MASKED phone number (so in particular at most
one non-deleted record), registration is rejected as already-existing
exactly when a non-deleted record with the same masked phone is stored
(so after a successful registration for P1, registering P2 is rejected on
account of P1's record precisely when the two phones share a mask), and a
masked phone is reused by a new registration only when the stored record
for it is soft-deleted, in which case that record is reactivated in place
rather than a new record created. -/
theorem C4_unique_per_masked_phone (st : AppState) (hr : Reachable st)
    (name P newId code : String) (salt now : Nat) :
    (st.users.map User.phone).Nodup
    ∧ ((register_user st name P newId code salt now).2
          = Except.error ⟨400, "User with this phone number already exists."⟩
        ↔ ∃ u ∈ st.users, u.phone = mask_phone P ∧ u.isUserDeleted = false)
    ∧ (∀ u, findByPhone st.users (mask_phone P) = some u →
        u.isUserDeleted = true →
        (register_user st name P newId code salt now).1.users
          = saveUser st.users { u with isUserDeleted := false, name := name }
        ∧ (register_user st name P newId code salt now).1.users.length
          = st.users.length) := by
  have hinv := storeInv_of_reachable st hr
  refine ⟨hinv.2, ⟨?_, ?_⟩, ?_⟩
  · intro herr
    cases hu : findByPhone st.users (mask_phone P) with
    | none =>
        simp only [register_user, hu] at herr
        exact Except.noConfusion herr
    | some u =>
        by_cases hdel : u.isUserDeleted = true
        · simp only [register_user, hu, hdel, Bool.not_true, Bool.false_eq_true,
            if_false] at herr
          exact Except.noConfusion herr
        · have hdel' : u.isUserDeleted = false := Bool.eq_false_iff.mpr hdel
          have hph := List.find?_some (p := fun (v : User) => v.phone == mask_phone P)
            (show List.find? (fun (v : User) => v.phone == mask_phone P) st.users
                = some u from hu)
          exact ⟨u, List.mem_of_find?_eq_some hu, beq_iff_eq.mp hph, hdel'⟩
  · rintro ⟨u, hmem, hph, hdel⟩
    cases hu : findByPhone st.users (mask_phone P) with
    | none =>
        have hu' : List.find? (fun (v : User) => v.phone == mask_phone P) st.users
            = none := hu
        exact absurd (beq_iff_eq.mpr hph) (List.find?_eq_none.mp hu' u hmem)
    | some v =>
        have hvmem := List.mem_of_find?_eq_some hu
        have hvph : v.phone = mask_phone P :=
          beq_iff_eq.mp (List.find?_some (p := fun (w : User) => w.phone == mask_phone P)
            (show List.find? (fun (w : User) => w.phone == mask_phone P) st.users
                = some v from hu))
        have hvu : v = u :=
          List.inj_on_of_nodup_map hinv.2 hvmem hmem (by rw [hvph, hph])
        subst hvu
        simp only [register_user, hu, hdel, Bool.not_false, if_true]
  · intro u hu hdel
    constructor
    · simp only [register_user, hu, hdel, Bool.not_true, Bool.false_eq_true,
        if_false]
    · simp only [register_user, hu, hdel, Bool.not_true, Bool.false_eq_true,
        if_false, saveUser, List.length_map]

/-- Witness for C4 at the reachable state obtained by registering Asha
into the empty state (register then holds one record with the masked
phone, so the iff's right-hand side is inhabited and registration of the
mask-colliding "1111113210" is rejected). -/
theorem C4_unique_per_masked_phone_witness :
    (stR.users.map User.phone).Nodup
    ∧ ((register_user stR "Bob" "1111113210" "id2" "654321" 1 0).2
          = Except.error ⟨400, "User with this phone number already exists."⟩
        ↔ ∃ u ∈ stR.users, u.phone = mask_phone "1111113210"
            ∧ u.isUserDeleted = false)
    ∧ (∀ u, findByPhone stR.users (mask_phone "1111113210") = some u →
        u.isUserDeleted = true →
        (register_user stR "Bob" "1111113210" "id2" "654321" 1 0).1.users
          = saveUser stR.users { u with isUserDeleted := false, name := "Bob" }
        ∧ (register_user stR "Bob" "1111113210" "id2" "654321" 1 0).1.users.length
          = stR.users.length) :=
  C4_unique_per_masked_phone stR
    (Reachable.reg ⟨[], []⟩ "Asha" "9876543210" "id1" "123456" 0 0
      (by intro u hu; simp at hu) Reachable.init)
    "Bob" "1111113210" "id2" "654321" 1 0
